import Mathlib

/-!
Verification development for the PAA agentic RAG chat application.

The subject of this development is the query pipeline of `streamlit_app.py`:
the flight-number entity extraction performed inside `query_flight_status`,
the three retrieval tools (`query_policy_and_baggage`, `query_flight_status`,
`query_web_links_and_forms`), the answer synthesizer
(`generate_answer_with_llm`) and the tool-calling orchestrator
(`orchestrator_agent`), plus the static airline table
`AIRLINE_ICAO_TO_IATA` of `rag_xml_admin.py`.

Modelling conventions:
- Python strings are Lean `String`s.  The Python string methods used by the
  code (`str.endswith`, `str.strip`, `str.join`, `str.replace`, `str.title`,
  `str.upper`) are embedded as structural, kernel-computable functions on the
  underlying character lists (`pyEndsWith`, `pyStrip`, `pyJoin`, `pyReplace`,
  `pyTitle`, and `Char.toUpper` mapped over the characters).  The regex
  character classes `[A-Z]` and `\d` are embedded as the ASCII predicates
  `Char.isUpper` and `Char.isDigit` (user queries are ASCII text).
- The external collaborators are parameters: the vector store is a function
  from the sub-query and the optional equality filter to an `Except`-wrapped
  record list (an `Except.error` models a raised store exception), and the
  Gemini LLM is a function from prompts to an `Except`-wrapped completion
  text.  Code that does not catch an exception is translated so that the
  `Except.error` propagates to its own result.
- Each retrieval function also returns the list of store calls it issued
  (`StoreCall`), so that properties about which lookups were or were not
  performed can be stated.  `orchestrator_agent` likewise returns the list of
  retrieval-tool names it actually invoked, and `generate_answer_with_llm`
  returns the number of LLM calls it performed (0 or 1).
-/

/-! ## Embeddings of the Python string methods used by the code -/

/-- Python `s.endswith(suffix)`. -/
def pyEndsWith (s suffix : String) : Bool := List.isSuffixOf suffix.data s.data

/-- Python `s.strip()` (with no argument): remove leading and trailing
whitespace. -/
def pyStrip (s : String) : String :=
  List.asString (((s.data.dropWhile Char.isWhitespace).reverse.dropWhile Char.isWhitespace).reverse)

/-- Python `sep.join(parts)`. -/
def pyJoin (sep : String) : List String → String
  | [] => ""
  | [x] => x
  | x :: y :: xs => x ++ sep ++ pyJoin sep (y :: xs)

/-- Fuel-indexed worker for `pyReplace`; the fuel is the length of the
remaining input, which bounds the number of steps when the pattern is
nonempty (all call sites use nonempty patterns). -/
def replaceFuel (old new : List Char) : Nat → List Char → List Char
  | 0, l => l
  | Nat.succ _, [] => []
  | Nat.succ n, c :: cs =>
      if List.isPrefixOf old (c :: cs) then
        new ++ replaceFuel old new n (List.drop old.length (c :: cs))
      else
        c :: replaceFuel old new n cs

/-- Python `s.replace(old, new)`: replace every non-overlapping occurrence,
scanning left to right. -/
def pyReplace (s old new : String) : String :=
  List.asString (replaceFuel old.data new.data s.data.length s.data)

/-- Worker for `pyTitle`: a character is uppercased exactly when the previous
character is not a letter, and lowercased otherwise. -/
def pyTitleGo : Bool → List Char → List Char
  | _, [] => []
  | prevAlpha, c :: cs =>
      (if prevAlpha then c.toLower else c.toUpper) :: pyTitleGo c.isAlpha cs

/-- Python `s.title()` (restricted to ASCII, which is all the call sites
use). -/
def pyTitle (s : String) : String := List.asString (pyTitleGo false s.data)

/-! ## Entity extraction: `re.search(r'([A-Z]{2}\d{2,4})', query.upper())`
from `query_flight_status` (streamlit_app.py, line 186) -/

/-- Greedy matching of `\d{0,n}`: take at most `n` leading ASCII digits. -/
def takeDigits : List Char → Nat → List Char
  | c :: cs, Nat.succ n => if c.isDigit then c :: takeDigits cs n else []
  | _, _ => []

/-- Attempt to match `[A-Z]{2}\d{2,4}` (with `\d{2,4}` greedy) at the head of
the character list, exactly as the anchored step of `re.search`. -/
def matchFlightAt : List Char → Option (List Char)
  | a :: b :: rest =>
      if a.isUpper && b.isUpper then
        if 2 ≤ (takeDigits rest 4).length then some (a :: b :: takeDigits rest 4) else none
      else none
  | _ => none

/-- `re.search` semantics: try the anchored match at each position from the
left and return the first (leftmost) success. -/
def searchFlightNum : List Char → Option (List Char)
  | [] => none
  | c :: cs =>
      match matchFlightAt (c :: cs) with
      | some m => some m
      | none => searchFlightNum cs

/-- The entity extractor of `query_flight_status`:
`re.search(r'([A-Z]{2}\d{2,4})', query.upper())`, returning the matched group
when the search succeeds.  `query.upper()` is embedded as mapping
`Char.toUpper` over the characters. -/
def extractFlight (query : String) : Option String :=
  (searchFlightNum (query.data.map Char.toUpper)).map List.asString

/-- Character-list version of the spec pattern `[A-Z0-9]{2}[0-9]{2,4}`
(full-string match). -/
def flightPatternL : List Char → Bool
  | a :: b :: rest =>
      (a.isUpper || a.isDigit) && (b.isUpper || b.isDigit) && rest.all Char.isDigit
        && decide (2 ≤ rest.length) && decide (rest.length ≤ 4)
  | _ => false

/-- The spec pattern `[A-Z0-9]{2}[0-9]{2,4}` as a full-string predicate. -/
def matchesFlightPattern (s : String) : Bool := flightPatternL s.data

/-- The 52 ASCII letters; used to quantify over "a 2-letter airline code,
possibly in lower case". -/
def asciiLetters : List Char :=
  ['a', 'b', 'c', 'd', 'e', 'f', 'g', 'h', 'i', 'j', 'k', 'l', 'm',
   'n', 'o', 'p', 'q', 'r', 's', 't', 'u', 'v', 'w', 'x', 'y', 'z',
   'A', 'B', 'C', 'D', 'E', 'F', 'G', 'H', 'I', 'J', 'K', 'L', 'M',
   'N', 'O', 'P', 'Q', 'R', 'S', 'T', 'U', 'V', 'W', 'X', 'Y', 'Z']

/-- The 10 ASCII digits. -/
def digitChars : List Char := ['0', '1', '2', '3', '4', '5', '6', '7', '8', '9']

/-! ## The vector store and the three retrieval tools
(streamlit_app.py, lines 172-210) -/

/-- An object of the `PAAFlightStatus` collection, with the properties the
code reads back. -/
structure FlightRecord where
  content : String
  flight_num : String
  status : String
deriving DecidableEq

/-- An object of the `PAAPolicy` collection. -/
structure PolicyRecord where
  content : String
  source : String
deriving DecidableEq

/-- An object of the `PAAWebLink` collection. -/
structure WebRecord where
  content : String
  url_href : String
deriving DecidableEq

/-- A query issued to a store collection: a `near_vector` similarity search
with an optional equality filter on the structured flight-number field and a
result limit. -/
inductive StoreCall where
  | nearVector (filter : Option String) (limit : Nat)
deriving DecidableEq

/-- Whether a store call is an unfiltered similarity search (no equality
filter attached). -/
def isUnfilteredCall : StoreCall → Bool
  | StoreCall.nearVector f _ => f.isNone

/-- `query_flight_status` (streamlit_app.py, lines 183-199).  The store
parameter maps the embedded query and the optional `flight_num` equality
filter to the response objects, or to `Except.error` when the underlying
client raises.  The function body contains no `try`/`except`, so a store
error propagates to the result.  The second component records the store
calls issued: the code always issues exactly one `near_vector` query with
`limit=1`, attaching the filter exactly when the regex search succeeded. -/
def query_flight_status (store : String → Option String → Except String (List FlightRecord))
    (query : String) : Except String String × List StoreCall :=
  let flight_num_match := extractFlight query
  let result :=
    match store query flight_num_match with
    | Except.error e => Except.error e
    | Except.ok objs =>
        Except.ok (match objs with
          | r :: _ =>
              "Flight Context (Flight: " ++ r.flight_num ++ ", Status: " ++ r.status ++ "): "
                ++ r.content
          | [] => "Flight Context: No relevant flight status found.")
  (result, [StoreCall.nearVector flight_num_match 1])

/-- `query_policy_and_baggage` (streamlit_app.py, lines 172-181): one
unfiltered `near_vector` query with `limit=1` against `PAAPolicy`. -/
def query_policy_and_baggage (store : String → Except String (List PolicyRecord))
    (query : String) : Except String String :=
  match store query with
  | Except.error e => Except.error e
  | Except.ok objs =>
      Except.ok (match objs with
        | r :: _ => "Policy Context (Source: " ++ r.source ++ "): " ++ r.content
        | [] => "Policy Context: No relevant policy found.")

/-- `query_web_links_and_forms` (streamlit_app.py, lines 201-210): one
unfiltered `near_vector` query with `limit=1` against `PAAWebLink`. -/
def query_web_links_and_forms (store : String → Except String (List WebRecord))
    (query : String) : Except String String :=
  match store query with
  | Except.error e => Except.error e
  | Except.ok objs =>
      Except.ok (match objs with
        | r :: _ => "Web Context (URL: " ++ r.url_href ++ "): " ++ r.content
        | [] => "Web Context: No relevant form or link found.")

/-- The possible per-intent retrieval outcomes, enumerating the exact return
shapes of the three retrieval tools: a found snippet carrying the retrieved
fields, or the fixed not-found placeholder of the corresponding tool. -/
inductive RetrievalOutcome where
  | policyFound (source content : String)
  | policyNotFound
  | flightFound (flight_num status content : String)
  | flightNotFound
  | webFound (url_href content : String)
  | webNotFound
deriving DecidableEq

/-- The string each outcome renders to, copied from the tools' return
statements. -/
def renderOutcome : RetrievalOutcome → String
  | RetrievalOutcome.policyFound source content =>
      "Policy Context (Source: " ++ source ++ "): " ++ content
  | RetrievalOutcome.policyNotFound => "Policy Context: No relevant policy found."
  | RetrievalOutcome.flightFound flight_num status content =>
      "Flight Context (Flight: " ++ flight_num ++ ", Status: " ++ status ++ "): " ++ content
  | RetrievalOutcome.flightNotFound => "Flight Context: No relevant flight status found."
  | RetrievalOutcome.webFound url_href content =>
      "Web Context (URL: " ++ url_href ++ "): " ++ content
  | RetrievalOutcome.webNotFound => "Web Context: No relevant form or link found."

/-- Whether the outcome is a found snippet (the retrieval returned an
object) rather than a not-found placeholder. -/
def isFoundOutcome : RetrievalOutcome → Bool
  | RetrievalOutcome.policyFound _ _ => true
  | RetrievalOutcome.flightFound _ _ _ => true
  | RetrievalOutcome.webFound _ _ => true
  | _ => false

/-! ## The answer synthesizer `generate_answer_with_llm`
(streamlit_app.py, lines 213-236) -/

/-- The list comprehension filter of line 214: keep exactly the chunks whose
text does not end with `"found."`. -/
def contextChunks (retrieved_chunks : List String) : List String :=
  retrieved_chunks.filter (fun chunk => !(pyEndsWith chunk "found."))

/-- Line 214: `context_text = "\n---\n".join([chunk for chunk in
retrieved_chunks if not chunk.endswith("found.")])`. -/
def context_text (retrieved_chunks : List String) : String :=
  pyJoin "\n---\n" (contextChunks retrieved_chunks)

/-- The fixed reply returned at line 216 when the joined context is blank. -/
def apologyReply : String :=
  "I am sorry, I could not find any relevant information in the available documents (Policy, Flight Status, or Website) to answer your question."

/-- The system prompt of line 218. -/
def system_prompt : String :=
  "You are an AI assistant for Pakistan Airport Authority (PAA). Your goal is to answer a user\x27s question by combining information from the provided contexts, which are separated by source tags (e.g., \x27Policy Context:\x27, \x27Flight Context:\x27). 1. **Strictly adhere** to the information in the CONTEXT section. 2. Synthesize all relevant points into one concise, helpful response. 3. If any requested piece of information is missing from the context, state it clearly."

/-- The user message of line 220. -/
def user_message (user_query ctx : String) : String :=
  "--- USER QUESTION: " ++ user_query ++ " --- CONTEXT (Synthesize these sources): " ++ ctx
    ++ " --- Final Answer (In English, based ONLY on the context):"

/-- `generate_answer_with_llm` (streamlit_app.py, lines 213-236).  The LLM
parameter maps (system prompt, user message) to the completion text, or to
`Except.error` when the API call raises; the `try`/`except` of lines 222-236
turns a raised error into the plain-text error string.  The second component
counts the LLM calls performed (the code performs at most one). -/
def generate_answer_with_llm (llm : String → String → Except String String)
    (user_query : String) (retrieved_chunks : List String) : String × Nat :=
  if pyStrip (context_text retrieved_chunks) = "" then
    (apologyReply, 0)
  else
    match llm system_prompt (user_message user_query (context_text retrieved_chunks)) with
    | Except.ok t => (pyStrip t, 1)
    | Except.error e => ("An error occurred during Gemini LLM generation: " ++ e, 1)

/-! ## The orchestrator `orchestrator_agent`
(streamlit_app.py, lines 239-308) -/

/-- The first Gemini response: the tool calls the model requested (by tool
name; the code always passes `query_text` as the argument, line 277) and the
direct answer text. -/
structure LLMResponse where
  function_calls : List String
  text : String

/-- The external Gemini surface used by one orchestrator run: the outcome of
the first (tool-selection) call, the text of the second (post-tool) call,
and the completion function used by `generate_answer_with_llm` on the
default path.  An `Except.error` models a raised API exception. -/
structure GeminiEnv where
  first : Except String LLMResponse
  second : Except String String
  synth : String → String → Except String String

/-- Line 279: `function_name.replace("query_", "").replace("_", " ").title()`. -/
def toolLabel (name : String) : String :=
  pyTitle (pyReplace (pyReplace name "query_" "") "_" " ")

/-- `tool_map = {t.__name__: t for t in tools}` (line 241) followed by the
`tool_map.get(function_name)` lookup of line 273. -/
def tool_map (policyTool flightTool webTool : String → Except String String)
    (name : String) : Option (String → Except String String) :=
  if name = "query_policy_and_baggage" then some policyTool
  else if name = "query_flight_status" then some flightTool
  else if name = "query_web_links_and_forms" then some webTool
  else none

/-- The tool-execution loop of lines 271-286: for each requested call, look
the name up in `tool_map` (unknown names are skipped), invoke the tool on
`query_text`, and collect the output chunk and the display label.  A raised
tool exception is not caught and so propagates.  The second component lists
the tool names actually invoked, in order. -/
def runToolCalls (toolMap : String → Option (String → Except String String))
    (query_text : String) :
    List String → Except String (List String × List String) × List String
  | [] => (Except.ok ([], []), [])
  | name :: rest =>
      match toolMap name with
      | none => runToolCalls toolMap query_text rest
      | some tool =>
          match tool query_text with
          | Except.error e => (Except.error e, [name])
          | Except.ok out =>
              match runToolCalls toolMap query_text rest with
              | (Except.error e, inv) => (Except.error e, name :: inv)
              | (Except.ok (chunks, labels), inv) =>
                  (Except.ok (out :: chunks, toolLabel name :: labels), name :: inv)

/-- `orchestrator_agent` (streamlit_app.py, lines 239-308).  The first
Gemini call is wrapped in `try`/`except` (lines 255-263) and a raised error
returns the plain-text failure tuple; the tool loop and the second Gemini
call (lines 291-295) are not wrapped, so their errors propagate
(`Except.error` result).  When no tool produced output, a nonempty direct
text answer is returned as-is; otherwise the code falls back to a default
`query_policy_and_baggage` retrieval plus `generate_answer_with_llm`.  The
second component lists the retrieval-tool names actually invoked during the
run. -/
def orchestrator_agent (env : GeminiEnv)
    (policyTool flightTool webTool : String → Except String String)
    (query_text : String) :
    Except String (String × List String) × List String :=
  match env.first with
  | Except.error e =>
      (Except.ok ("Gemini API call failed during orchestration. Details: " ++ e, ["API Error"]), [])
  | Except.ok response =>
      match runToolCalls (tool_map policyTool flightTool webTool) query_text
          response.function_calls with
      | (Except.error e, invoked) => (Except.error e, invoked)
      | (Except.ok (retrieved_chunks, tools_used), invoked) =>
          if retrieved_chunks.isEmpty = false then
            match env.second with
            | Except.error e => (Except.error e, invoked)
            | Except.ok t => (Except.ok (pyStrip t, tools_used), invoked)
          else if pyStrip response.text = "" then
            match policyTool query_text with
            | Except.error e => (Except.error e, invoked ++ ["query_policy_and_baggage"])
            | Except.ok chunk =>
                (Except.ok
                  ((generate_answer_with_llm env.synth query_text
                      (retrieved_chunks ++ [chunk])).1,
                    tools_used ++ ["Policy and Baggage (Default)"]),
                  invoked ++ ["query_policy_and_baggage"])
          else
            (Except.ok (pyStrip response.text, ["Direct LLM Response"]), invoked)

/-! ## The static airline table (rag_xml_admin.py, lines 112-724) and its
ingestion-time use (line 1458) -/

/-- `AIRLINE_ICAO_TO_IATA` from rag_xml_admin.py: the mapping from airline
ICAO codes to IATA codes, in source order. -/
def AIRLINE_ICAO_TO_IATA : List (String × String) :=
  [("AAP", "AAP"), ("AAR", "OZ"), ("ABA", "ABA"), ("ABB", "AJ"),
   ("ABQ", "PA"), ("ABW", "RU"), ("ABY", "G9"), ("ACA", "AC"),
   ("AEA", "UX"), ("AEF", "YP"), ("AFG", "FG"), ("AFL", "SU"),
   ("AFR", "AF"), ("AHY", "J2"), ("AIC", "AI"), ("AIZ", "IZ"),
   ("AKH", "AK"), ("ALK", "UL"), ("AMM", "DP"), ("AMT", "TZ"),
   ("ANA", "NH"), ("ANK", "KA"), ("ANS", "YW"), ("ANZ", "NZ"),
   ("AOM", "IW"), ("APF", "AP"), ("ARG", "AR"), ("ART", "6Y"),
   ("ASS", "ASS"), ("AUA", "OS"), ("AVA", "AV"), ("AVJ", "YK"),
   ("AWC", "ZT"), ("AWP", "AD"), ("AXX", "M4"), ("AXY", "9X"),
   ("AYC", "AO"), ("AZA", "AZ"), ("AZG", "7L"), ("AZQ", "ZP"),
   ("AZS", "ZR"), ("AZW", "UM"), ("AZX", "7L"), ("BAL", "BY"),
   ("BAW", "BA"), ("BBC", "BG"), ("BMA", "BD"), ("BON", "JA"),
   ("BPA", "BV"), ("BRA", "BU"), ("BRZ", "E5"), ("BTC", "V9"),
   ("BTP", "BT"), ("BZH", "DB"), ("CAA", "PV"), ("CAF", "CAF"),
   ("CCA", "CA"), ("CDN", "CP"), ("CES", "MU"), ("CFJ", "IV"),
   ("CFZ", "CF"), ("CGW", "G8"), ("CHH", "HU"), ("CJG", "ZJ"),
   ("CKK", "CK"), ("CLX", "CV"), ("CMB", "OY"), ("CMS", "CMS"),
   ("COA", "CO"), ("CRL", "SS"), ("CSC", "3U"), ("CSN", "CZ"),
   ("CSS", "O3"), ("CSZ", "ZH"), ("CTN", "OU"), ("CUA", "KN"),
   ("CUS", "X5"), ("CYN", "Z2"), ("CYZ", "8Y"), ("DAF", "DAF"),
   ("DAN", "9J"), ("DER", "DR"), ("DJA", "HO"), ("DLH", "LH"),
   ("DNV", "D9"), ("DPP", "DPP"), ("DTR", "DX"), ("EIA", "EZ"),
   ("ELL", "ES"), ("ELY", "LY"), ("ENT", "E4"), ("ESM", "ESM"),
   ("ETD", "EY"), ("ETH", "ET"), ("EVE", "EV"), ("EZZ", "LI"),
   ("FBA", "IF"), ("FDB", "FZ"), ("FHY", "FH"), ("FIN", "AY"),
   ("FJL", "9P"), ("FPG", "AL"), ("GBB", "GE"), ("GBG", "G2"),
   ("GEL", "D4"), ("GEO", "DA"), ("GFA", "GF"), ("GIA", "GA"),
   ("GIL", "9C"), ("GLY", "GLY"), ("GMI", "ST"), ("GOP", "GOP"),
   ("GTI", "5Y"), ("GTK", "TD"), ("GWC", "GW"), ("HFM", "5M"),
   ("HFY", "5K"), ("HIM", "H9"), ("HSP", "HSP"), ("HVN", "VN"),
   ("HYB", "HYB"), ("HYT", "YG"), ("IAW", "IA"), ("IBE", "IB"),
   ("IBH", "IBH"), ("ICE", "FI"), ("ICN", "ICN"), ("IFA", "F3"),
   ("IGB", "IGB"), ("IRA", "IR"), ("IRB", "B9"), ("IRM", "W5"),
   ("IST", "IL"), ("IWD", "TY"), ("IYE", "IY"), ("JAE", "JI"),
   ("JAL", "JL"), ("JAS", "JD"), ("JAT", "JU"), ("JAV", "R5"),
   ("JDW", "JW"), ("JEA", "JY"), ("JKK", "JK"), ("JSP", "JSP"),
   ("JZE", "JZR"), ("JZR", "J9"), ("KAC", "KU"), ("KAL", "KE"),
   ("KFC", "KFC"), ("KIL", "GW"), ("KLM", "KL"), ("KMF", "RQ"),
   ("KNC", "KNC"), ("KNE", "XY"), ("KTA", "KTA"), ("KYV", "KT"),
   ("KZA", "K4"), ("KZK", "9Y"), ("LAN", "LA"), ("LAO", "QV"),
   ("LAZ", "LZ"), ("LBT", "BJ"), ("LCH", "LCH"), ("LCY", "LCY"),
   ("LFA", "H7"), ("LFC", "LFC"), ("LOT", "LO"), ("LTU", "LT"),
   ("LUI", "GV"), ("MAK", "IN"), ("MAR", "MV"), ("MAS", "MH"),
   ("MAU", "MK"), ("MDA", "AE"), ("MEA", "ME"), ("MFC", "MFC"),
   ("MGL", "OM"), ("MKR", "LQ"), ("MON", "ZB"), ("MPH", "MP"),
   ("MPK", "I6"), ("MSA", "MSA"), ("MSC", "SM"), ("MSI", "M9"),
   ("MSR", "MS"), ("MXM", "6M"), ("N19", "N1"), ("NCR", "N8"),
   ("NST", "NT"), ("NVD", "X9"), ("OEA", "OX"), ("OHY", "8Q"),
   ("OKA", "BK"), ("OLY", "OL"), ("OMA", "WY"), ("OML", "OML"),
   ("OMS", "OV"), ("OPC", "PES"), ("ORB", "R2"), ("ORX", "XW"),
   ("PAC", "PO"), ("PAG", "PAG"), ("PAL", "PR"), ("PAV", "PAV"),
   ("PBA", "9Q"), ("PEC", "Q8"), ("PFC", "PFC"), ("PGA", "NI"),
   ("PHO", "PHO"), ("PIA", "PK"), ("PK1", "PK1"), ("PK2", "PK2"),
   ("PLK", "Z8"), ("PLM", "EB"), ("PRL", "J5"), ("PSL", "PS"),
   ("PVG", "P6"), ("PVV", "FP"), ("QFA", "QF"), ("QQE", "QE"),
   ("QSC", "AS"), ("QTR", "QR"), ("RBA", "BI"), ("RCH", "MC"),
   ("RFC", "RFC"), ("RGI", "VM"), ("RJA", "RJ"), ("RKM", "RT"),
   ("RME", "R3"), ("RMV", "WQ"), ("RNA", "RA"), ("ROJ", "ROJ"),
   ("ROT", "RO"), ("ROY", "QN"), ("RRR", "RR"), ("RSF", "ZS"),
   ("RYR", "FR"), ("SAA", "SA"), ("SAI", "NL"), ("SAS", "SK"),
   ("SCA", "SCA"), ("SCW", "6E"), ("SEP", "ER"), ("SEU", "2R"),
   ("SEY", "HM"), ("SFW", "4Q"), ("SGQ", "6S"), ("SHA", "SHA"),
   ("SHJ", "SH"), ("SIA", "SQ"), ("SIE", "SIE"), ("SIF", "PF"),
   ("SLR", "Q7"), ("SND", "S3"), ("SSV", "DM"), ("STA", "STA"),
   ("SVA", "SV"), ("SVL", "8S"), ("SWF", "SW"), ("SWL", "SWL"),
   ("SWR", "LX"), ("TAP", "TP"), ("TBZ", "I3"), ("THA", "TG"),
   ("THD", "WE"), ("THY", "TK"), ("TKY", "9I"), ("TLA", "T7"),
   ("TLE", "SH"), ("TOP", "B6"), ("TOW", "FF"), ("TQQ", "3T"),
   ("TSC", "TS"), ("TSO", "UN"), ("TSW", "BH"), ("TUA", "T5"),
   ("TVS", "QS"), ("TWE", "TQ"), ("TXZ", "EX"), ("TZK", "7J"),
   ("TZS", "N6"), ("UAE", "EK"), ("UAL", "UA"), ("UBA", "UB"),
   ("UDN", "Z6"), ("UEP", "UEP"), ("UFC", "UFC"), ("UKR", "6U"),
   ("USA", "US"), ("UZB", "HY"), ("VCX", "VC"), ("VEN", "VEN"),
   ("VIM", "VL"), ("VIR", "VS"), ("VIS", "VIS"), ("VIV", "FV"),
   ("VJT", "VT"), ("VLM", "VG"), ("VPA", "9V"), ("VRG", "RG"),
   ("VSP", "VP"), ("VTR", "8K"), ("YYY", "PK"), ("YZR", "Y8"),
   ("ZZZ", "ZZZ")]

/-- Python `dict(pairs).get(key, default)`: the dict built from an
association list keeps the last binding of each key, so the lookup scans the
pairs from the end. -/
def pyDictGet (d : List (String × String)) (k : String) (dflt : Option String) : Option String :=
  match d.reverse.find? (fun p => p.fst == k) with
  | some p => some p.snd
  | none => dflt

/-- Line 1458 of rag_xml_admin.py:
`AIRLINE_ICAO_TO_IATA.get(carrier_icao, <IATA code from the XML>)` — the only
place the alias table is consulted, during XML ingestion. -/
def carrier_iata_of (carrier_icao fallback : Option String) : Option String :=
  match carrier_icao with
  | some icao => pyDictGet AIRLINE_ICAO_TO_IATA icao fallback
  | none => fallback

/-! ## Concrete fixtures used by the closed (witness / counterexample)
theorems -/

/-- A flight store whose similarity search finds nothing. -/
def storeEmpty : String → Option String → Except String (List FlightRecord) :=
  fun _ _ => Except.ok []

/-- A flight store whose query raises. -/
def storeRaise : String → Option String → Except String (List FlightRecord) :=
  fun _ _ => Except.error "WeaviateQueryError"

/-- An LLM that always answers with fixed text. -/
def llmEcho : String → String → Except String String :=
  fun _ _ => Except.ok "A general-knowledge answer."

/-- An LLM whose call raises. -/
def llmRaise : String → String → Except String String :=
  fun _ _ => Except.error "GeminiDown"

/-- A policy tool returning its not-found placeholder. -/
def toolPolicyNotFound : String → Except String String :=
  fun _ => Except.ok "Policy Context: No relevant policy found."

/-- A flight tool returning a found snippet. -/
def toolFlightFound : String → Except String String :=
  fun _ => Except.ok "Flight Context (Flight: SV726, Status: LD): Flight number SV726 from JED has a Scheduled Time of 2025-01-01T10:00. The operational status code is LD."

/-- A web tool returning its not-found placeholder. -/
def toolWebNotFound : String → Except String String :=
  fun _ => Except.ok "Web Context: No relevant form or link found."

/-- A Gemini environment whose first response has no tool calls and empty
text (e.g. an empty candidate for a greeting). -/
def envGreet : GeminiEnv := ⟨Except.ok ⟨[], ""⟩, Except.ok "unused", llmEcho⟩

/-- A Gemini environment whose first response is a direct text answer with
no tool calls. -/
def envDirect : GeminiEnv := ⟨Except.ok ⟨[], "Hello! How can I help you today?"⟩, Except.ok "unused", llmEcho⟩

/-- A Gemini environment whose first response requests the flight tool and
whose second (post-tool) call raises. -/
def envSecondRaise : GeminiEnv :=
  ⟨Except.ok ⟨["query_flight_status"], ""⟩, Except.error "GeminiSecondCallError", llmEcho⟩

/-- A Gemini environment whose first call raises. -/
def envFirstRaise : GeminiEnv := ⟨Except.error "GeminiDown", Except.ok "unused", llmEcho⟩

/-! ## Helper lemmas about the extraction embedding -/

theorem toUpper_isUpper_of_letter : ∀ c ∈ asciiLetters, (Char.toUpper c).isUpper = true := by
  intro c hc
  fin_cases hc <;> decide

theorem toUpper_eq_of_digit : ∀ c ∈ digitChars, Char.toUpper c = c := by
  intro c hc
  fin_cases hc <;> decide

theorem isDigit_of_digit : ∀ c ∈ digitChars, c.isDigit = true := by
  intro c hc
  fin_cases hc <;> decide

theorem map_toUpper_digits (ds : List Char) (h : ∀ c ∈ ds, c ∈ digitChars) :
    ds.map Char.toUpper = ds := by
  induction ds with
  | nil => rfl
  | cons c cs ih =>
      simp only [List.map_cons]
      rw [toUpper_eq_of_digit c (h c (by simp)), ih (fun x hx => h x (by simp [hx]))]

theorem takeDigits_all (cs : List Char) : ∀ (n : Nat), (takeDigits cs n).all Char.isDigit = true := by
  induction cs with
  | nil => intro n; cases n <;> rfl
  | cons c cs ih =>
      intro n
      cases n with
      | zero => rfl
      | succ k =>
          simp only [takeDigits]
          by_cases hd : c.isDigit = true
          · simp [hd, ih k]
          · simp [hd]

theorem takeDigits_len (cs : List Char) : ∀ (n : Nat), (takeDigits cs n).length ≤ n := by
  induction cs with
  | nil => intro n; cases n <;> simp [takeDigits]
  | cons c cs ih =>
      intro n
      cases n with
      | zero => simp [takeDigits]
      | succ k =>
          simp only [takeDigits]
          by_cases hd : c.isDigit = true
          · simp only [hd, if_pos, List.length_cons]
            exact Nat.succ_le_succ (ih k)
          · simp [hd]

theorem takeDigits_full (ds : List Char) :
    ∀ (n : Nat), (∀ c ∈ ds, c.isDigit = true) → ds.length ≤ n → takeDigits ds n = ds := by
  induction ds with
  | nil => intro n _ _; cases n <;> rfl
  | cons c cs ih =>
      intro n hall hlen
      cases n with
      | zero => exact absurd hlen (by simp)
      | succ k =>
          simp only [takeDigits, hall c (by simp), if_pos]
          rw [ih k (fun x hx => hall x (by simp [hx])) (Nat.le_of_succ_le_succ (by simpa using hlen))]

theorem matchFlightAt_pattern (l m : List Char) (h : matchFlightAt l = some m) :
    flightPatternL m = true := by
  match l with
  | [] => simp [matchFlightAt] at h
  | [a] => simp [matchFlightAt] at h
  | a :: b :: rest =>
      simp only [matchFlightAt] at h
      by_cases hab : (a.isUpper && b.isUpper) = true
      · rw [if_pos hab] at h
        by_cases hlen : 2 ≤ (takeDigits rest 4).length
        · rw [if_pos hlen] at h
          obtain ⟨ha, hb⟩ := Bool.and_eq_true_iff.mp hab
          have hm : m = a :: b :: takeDigits rest 4 := (Option.some.injEq _ _).mp h.symm
          subst hm
          simp only [flightPatternL, ha, hb, Bool.true_or, Bool.or_true, Bool.true_and]
          simp [takeDigits_all rest 4, hlen, takeDigits_len rest 4]
        · rw [if_neg hlen] at h; exact absurd h (by simp)
      · rw [if_neg hab] at h; exact absurd h (by simp)

theorem searchFlightNum_pattern (l : List Char) :
    ∀ (m : List Char), searchFlightNum l = some m → flightPatternL m = true := by
  induction l with
  | nil => intro m h; simp [searchFlightNum] at h
  | cons c cs ih =>
      intro m h
      simp only [searchFlightNum] at h
      cases hm : matchFlightAt (c :: cs) with
      | some m2 =>
          rw [hm] at h
          exact (Option.some.injEq _ _).mp h ▸ matchFlightAt_pattern (c :: cs) m2 hm
      | none =>
          rw [hm] at h
          exact ih m h

/-- C9 (confirmed): whenever the flight-identifier extraction of
`query_flight_status` succeeds, the returned string matches the pattern
`[A-Z0-9]{2}[0-9]{2,4}` — two uppercase-or-digit characters followed by two
to four digits.  (The match in fact always starts with two uppercase
letters, which is stronger.) -/
theorem c9_extraction_matches_pattern (q s : String) (h : extractFlight q = some s) :
    matchesFlightPattern s = true := by
  unfold extractFlight at h
  obtain ⟨m, hm, hs⟩ := Option.map_eq_some'.mp h
  have : (List.asString m).data = m := rfl
  rw [← hs]
  show flightPatternL (List.asString m).data = true
  rw [this]
  exact searchFlightNum_pattern _ m hm

/-- Witness for C9: the query "status of SV726" extracts "SV726", which
matches the pattern. -/
theorem c9_witness :
    extractFlight "status of SV726" = some "SV726" ∧ matchesFlightPattern "SV726" = true :=
  ⟨by decide, c9_extraction_matches_pattern "status of SV726" "SV726" (by decide)⟩

/-- C3 counterexample: the claim says "sv-726" yields "SV726" because
`-`/`.` separators are stripped before the pattern search.  The code only
applies `query.upper()` — no whitespace collapsing and no separator
stripping exist — so the regex `[A-Z]{2}\d{2,4}` finds no match in "SV-726"
and extraction fails. -/
theorem c3_counterexample : extractFlight "sv-726" = none := by decide

/-- C3 (corrected): extraction succeeds exactly on the contiguous form.  For
every query consisting of two ASCII letters (either case) immediately
followed by 2-4 digits, the extractor returns the uppercased concatenation;
separated forms such as "sv-726" are not recognised (see the
counterexample). -/
theorem c3_contiguous_amended (a b : Char) (ds : List Char)
    (ha : a ∈ asciiLetters) (hb : b ∈ asciiLetters) (hds : ∀ c ∈ ds, c ∈ digitChars)
    (hlen2 : 2 ≤ ds.length) (hlen4 : ds.length ≤ 4) :
    extractFlight (List.asString (a :: b :: ds))
      = some (List.asString (Char.toUpper a :: Char.toUpper b :: ds)) := by
  have hA := toUpper_isUpper_of_letter a ha
  have hB := toUpper_isUpper_of_letter b hb
  have hfull : takeDigits ds 4 = ds :=
    takeDigits_full ds 4 (fun c hc => isDigit_of_digit c (hds c hc)) hlen4
  have hmap : ds.map Char.toUpper = ds := map_toUpper_digits ds hds
  have hmatch : matchFlightAt (Char.toUpper a :: Char.toUpper b :: ds)
      = some (Char.toUpper a :: Char.toUpper b :: ds) := by
    simp [matchFlightAt, hA, hB, hfull, hlen2]
  unfold extractFlight
  show (searchFlightNum ((a :: b :: ds).map Char.toUpper)).map List.asString = _
  simp only [List.map_cons, hmap]
  simp [searchFlightNum, hmatch]

/-- Witness for C3 (amended): "sv726" extracts as "SV726". -/
theorem c3_witness :
    ('s' ∈ asciiLetters) ∧
      extractFlight (List.asString ['s', 'v', '7', '2', '6'])
        = some (List.asString [Char.toUpper 's', Char.toUpper 'v', '7', '2', '6']) :=
  ⟨by decide,
    c3_contiguous_amended 's' 'v' ['7', '2', '6'] (by decide) (by decide) (by decide)
      (by decide) (by decide)⟩

/-- C4 counterexample: the claim says an airline alias followed by a bare
number yields the mapped code prepended (e.g. "Saudia 726" yields "SV726").
The query path performs no alias lookup at all: extraction on "Saudia 726"
fails, and the flight query therefore runs without any equality filter. -/
theorem c4_counterexample :
    extractFlight "Saudia 726" = none ∧
      (query_flight_status storeEmpty "Saudia 726").1
        = Except.ok "Flight Context: No relevant flight status found." :=
  ⟨by decide, rfl⟩

/-- C4 (corrected): no alias table is consulted during query-time
extraction.  Queries of the form airline-name + bare number ("Saudia 726",
and "Saudi Airline 726" using the name the table itself carries for SV)
extract nothing, so the flight search is issued without an equality filter;
the only alias table in the repository, `AIRLINE_ICAO_TO_IATA`, maps ICAO
codes to IATA codes and is consulted only at XML-ingestion time, where it
maps Saudia's ICAO code "SVA" to "SV". -/
theorem c4_no_alias_amended :
    extractFlight "Saudia 726" = none ∧
      extractFlight "Saudi Airline 726" = none ∧
      (query_flight_status storeEmpty "Saudia 726").2 = [StoreCall.nearVector none 1] ∧
      carrier_iata_of (some "SVA") none = some "SV" := by
  refine ⟨by decide, by decide, by decide, ?_⟩
  decide

/-- C1 counterexample: with a `CanonicalFlight` extracted ("SV726") and a
store whose filtered lookup returns no rows, the claim requires the
similarity-search fallback to be invoked.  The code issues exactly one store
call — the filtered `near_vector` query — performs no unfiltered fallback
search, and returns the not-found placeholder. -/
theorem c1_counterexample :
    extractFlight "SV726" = some "SV726" ∧
      (query_flight_status storeEmpty "SV726").1
        = Except.ok "Flight Context: No relevant flight status found." ∧
      (query_flight_status storeEmpty "SV726").2
        = [StoreCall.nearVector (some "SV726") 1] ∧
      (query_flight_status storeEmpty "SV726").2.any isUnfilteredCall = false :=
  ⟨by decide, rfl, by decide, by decide⟩

/-- C1 (corrected): per-intent flight retrieval is single-tier.  For every
store and query, `query_flight_status` issues exactly one `near_vector`
store call with `limit=1`, carrying the `flight_num` equality filter exactly
when a CanonicalFlight was extracted; an unfiltered similarity search is
issued if and only if no CanonicalFlight was extracted.  In particular, a
filtered lookup that returns no rows is never followed by a fallback
similarity search. -/
theorem c1_single_call_amended
    (store : String → Option String → Except String (List FlightRecord)) (q : String) :
    (query_flight_status store q).2 = [StoreCall.nearVector (extractFlight q) 1] ∧
      ((query_flight_status store q).2.any isUnfilteredCall = true ↔ extractFlight q = none) := by
  refine ⟨rfl, ?_⟩
  show ([StoreCall.nearVector (extractFlight q) 1].any isUnfilteredCall = true) ↔ _
  simp [isUnfilteredCall]

/-- Witness for C1 (amended): a query with no extractable flight number
("hello") produces an unfiltered similarity search. -/
theorem c1_witness :
    (query_flight_status storeEmpty "hello").2.any isUnfilteredCall = true :=
  (c1_single_call_amended storeEmpty "hello").2.mpr (by decide)

/-- C2 counterexample: a store exception is not caught: the retrieval tool
propagates the raised error instead of returning the not-found placeholder
result the claim requires. -/
theorem c2_counterexample :
    (query_flight_status storeRaise "PK301").1 = Except.error "WeaviateQueryError" :=
  rfl

/-- C2 (corrected): there is no `try`/`except` in the retrieval path.  For
every store, query and error, if the underlying store call raises, then
`query_flight_status` propagates exactly that error (it is caught only by
the top-level Streamlit handler, far above the retrieval dispatcher). -/
theorem c2_propagation_amended
    (store : String → Option String → Except String (List FlightRecord))
    (q e : String) (h : store q (extractFlight q) = Except.error e) :
    (query_flight_status store q).1 = Except.error e := by
  unfold query_flight_status
  dsimp only
  rw [h]

/-- Witness for C2 (amended): the raising store makes the tool return the
same error. -/
theorem c2_witness :
    storeRaise "SV726" (extractFlight "SV726") = Except.error "WeaviateQueryError" ∧
      (query_flight_status storeRaise "SV726").1 = Except.error "WeaviateQueryError" :=
  ⟨rfl, c2_propagation_amended storeRaise "SV726" "WeaviateQueryError" rfl⟩

/-! ## Helper lemmas about the synthesizer -/

theorem contextChunks_nil_of_all_found (chunks : List String)
    (h : ∀ c ∈ chunks, pyEndsWith c "found." = true) : contextChunks chunks = [] := by
  unfold contextChunks
  rw [List.filter_eq_nil_iff]
  intro a ha
  simp [h a ha]

theorem generate_apology_of_all_found (llm : String → String → Except String String)
    (q : String) (chunks : List String) (h : ∀ c ∈ chunks, pyEndsWith c "found." = true) :
    generate_answer_with_llm llm q chunks = (apologyReply, 0) := by
  have hc : contextChunks chunks = [] := contextChunks_nil_of_all_found chunks h
  unfold generate_answer_with_llm context_text
  rw [hc]
  rfl

/-- C5 counterexample: with every retrieval result being a not-found
placeholder, the claim requires the synthesizer to delegate to the LLM with
a general-knowledge instruction and disclose that no internal record was
used.  The code instead returns the fixed apology string and performs zero
LLM calls. -/
theorem c5_counterexample :
    generate_answer_with_llm llmEcho "Tell me about PIA"
        ["Policy Context: No relevant policy found.",
         "Web Context: No relevant form or link found."]
      = (apologyReply, 0) := by
  decide

/-- C5 (corrected): when every retrieved chunk ends with "found." (in
particular when every active intent returned its not-found placeholder),
`generate_answer_with_llm` returns the fixed apology reply and does not call
the LLM at all; no general-knowledge answer is produced. -/
theorem c5_apology_amended (llm : String → String → Except String String)
    (q : String) (chunks : List String)
    (h : chunks.all (fun c => pyEndsWith c "found.") = true) :
    generate_answer_with_llm llm q chunks = (apologyReply, 0) :=
  generate_apology_of_all_found llm q chunks (by simpa using h)

/-- Witness for C5 (amended). -/
theorem c5_witness :
    (["Flight Context: No relevant flight status found."].all
        (fun c => pyEndsWith c "found.") = true) ∧
      generate_answer_with_llm llmEcho "Which flights go to Jeddah?"
          ["Flight Context: No relevant flight status found."]
        = (apologyReply, 0) :=
  ⟨by decide,
    c5_apology_amended llmEcho "Which flights go to Jeddah?"
      ["Flight Context: No relevant flight status found."] (by decide)⟩

/-- C10 (confirmed): the synthesizer classifies chunks as not-found solely
by the suffix test `chunk.endswith("found.")`: a chunk belongs to the
grounding context exactly when its text does not end with "found." (so a
genuinely retrieved snippet ending that way is excluded), and when every
chunk ends with "found." the fixed apology string is returned with zero LLM
calls. -/
theorem c10_not_found_classification (llm : String → String → Except String String)
    (q : String) (chunks : List String) :
    (∀ c ∈ chunks, (c ∈ contextChunks chunks ↔ pyEndsWith c "found." = false)) ∧
      (chunks.all (fun c => pyEndsWith c "found.") = true →
        generate_answer_with_llm llm q chunks = (apologyReply, 0)) := by
  constructor
  · intro c hc
    simp [contextChunks, List.mem_filter, hc]
  · intro h
    exact generate_apology_of_all_found llm q chunks (by simpa using h)

/-- Witness for C10. -/
theorem c10_witness :
    generate_answer_with_llm llmEcho "any flights?"
        ["Flight Context: No relevant flight status found."]
      = (apologyReply, 0) :=
  (c10_not_found_classification llmEcho "any flights?"
      ["Flight Context: No relevant flight status found."]).2 (by decide)

/-- C7 counterexample: a found policy snippet whose retrieved content
happens to end with "found." is excluded from the grounding context, and
with it as the only retrieved chunk the synthesizer returns the apology
without any LLM call — contradicting the claim that every found snippet is
included. -/
theorem c7_counterexample :
    isFoundOutcome (RetrievalOutcome.policyFound "policy_baggage.pdf"
        "No matching items were found.") = true ∧
      contextChunks [renderOutcome (RetrievalOutcome.policyFound "policy_baggage.pdf"
        "No matching items were found.")] = [] ∧
      generate_answer_with_llm llmEcho "what items were found?"
          [renderOutcome (RetrievalOutcome.policyFound "policy_baggage.pdf"
            "No matching items were found.")]
        = (apologyReply, 0) := by
  refine ⟨rfl, by decide, by decide⟩

/-- C7 (corrected): the grounding context consists of exactly the retrieved
chunks whose text does not end with "found.".  Every not-found placeholder
ends with "found." and is therefore excluded, and a found snippet is
included if and only if its rendered text does not end with "found." — a
found snippet whose content ends that way (see the counterexample) is
wrongly excluded. -/
theorem c7_context_amended (outcomes : List RetrievalOutcome) (o : RetrievalOutcome) :
    contextChunks (outcomes.map renderOutcome)
        = (outcomes.filter (fun x => !(pyEndsWith (renderOutcome x) "found."))).map
            renderOutcome ∧
      (isFoundOutcome o = false → pyEndsWith (renderOutcome o) "found." = true) := by
  constructor
  · induction outcomes with
    | nil => rfl
    | cons x xs ih =>
        by_cases hx : pyEndsWith (renderOutcome x) "found." = true
        · simp only [contextChunks, List.map_cons, List.filter_cons, hx] at ih ⊢
          simpa using ih
        · simp only [contextChunks, List.map_cons, List.filter_cons,
            Bool.not_eq_true] at ih ⊢
          simp only [Bool.not_eq_true] at hx
          simp [hx, ih]
  · intro h
    cases o with
    | policyFound s c => simp [isFoundOutcome] at h
    | flightFound f s c => simp [isFoundOutcome] at h
    | webFound u c => simp [isFoundOutcome] at h
    | policyNotFound => decide
    | flightNotFound => decide
    | webNotFound => decide

/-- Witness for C7 (amended), at a mixed found / not-found outcome list. -/
theorem c7_witness :
    contextChunks ([RetrievalOutcome.policyNotFound,
          RetrievalOutcome.flightFound "SV726" "LD" "Boarding at gate 4."].map renderOutcome)
        = ([RetrievalOutcome.policyNotFound,
            RetrievalOutcome.flightFound "SV726" "LD" "Boarding at gate 4."].filter
              (fun x => !(pyEndsWith (renderOutcome x) "found."))).map renderOutcome ∧
      pyEndsWith (renderOutcome RetrievalOutcome.policyNotFound) "found." = true :=
  ⟨(c7_context_amended [RetrievalOutcome.policyNotFound,
        RetrievalOutcome.flightFound "SV726" "LD" "Boarding at gate 4."]
      RetrievalOutcome.policyNotFound).1,
    (c7_context_amended [RetrievalOutcome.policyNotFound,
        RetrievalOutcome.flightFound "SV726" "LD" "Boarding at gate 4."]
      RetrievalOutcome.policyNotFound).2 rfl⟩

/-- C8 counterexample: the orchestrator's second LLM call (lines 291-295,
made after tool outputs were collected) is not wrapped in `try`/`except`:
when it raises, the exception escapes `orchestrator_agent` instead of being
returned as a plain-text error string. -/
theorem c8_counterexample :
    (orchestrator_agent envSecondRaise toolPolicyNotFound toolFlightFound toolWebNotFound
        "status of SV726").1 = Except.error "GeminiSecondCallError" :=
  rfl

/-- C8 (corrected): the synthesizer's LLM call and the orchestrator's first
LLM call are caught and surfaced as plain-text error strings with no retry
(a single call is made); but the orchestrator's second, post-tool LLM call
is unprotected and its exception escapes the orchestrator (see the
counterexample), reaching only the top-level UI handler. -/
theorem c8_error_handling_amended (llm : String → String → Except String String)
    (q : String) (chunks : List String) (e : String) (env : GeminiEnv)
    (p f w : String → Except String String) (q2 e2 : String) :
    ((pyStrip (context_text chunks) = "" → False) →
      llm system_prompt (user_message q (context_text chunks)) = Except.error e →
      generate_answer_with_llm llm q chunks
        = ("An error occurred during Gemini LLM generation: " ++ e, 1)) ∧
      (env.first = Except.error e2 →
        orchestrator_agent env p f w q2
          = (Except.ok ("Gemini API call failed during orchestration. Details: " ++ e2,
              ["API Error"]), [])) := by
  constructor
  · intro hne hllm
    unfold generate_answer_with_llm
    rw [if_neg hne, hllm]
  · intro h2
    unfold orchestrator_agent
    rw [h2]

/-- Witness for C8 (amended): a raising LLM inside the synthesizer yields
the plain-text error string and exactly one (unretried) LLM call. -/
theorem c8_witness :
    (pyStrip (context_text ["Flight Context (Flight: SV726, Status: LD): boarding soon"])
        = "" → False) ∧
      generate_answer_with_llm llmRaise "where is SV726?"
          ["Flight Context (Flight: SV726, Status: LD): boarding soon"]
        = ("An error occurred during Gemini LLM generation: " ++ "GeminiDown", 1) :=
  ⟨by decide,
    (c8_error_handling_amended llmRaise "where is SV726?"
        ["Flight Context (Flight: SV726, Status: LD): boarding soon"] "GeminiDown"
        envGreet toolPolicyNotFound toolFlightFound toolWebNotFound "x" "y").1
      (by decide) rfl⟩

/-- C6 counterexample: the code contains no greeting patterns and no intent
router returning NONE; routing is delegated entirely to the LLM.  For the
pure greeting "hello", when the first Gemini response carries no tool calls
and empty text, the orchestrator invokes the policy retrieval tool by
default — a retrieval collection is queried for the greeting turn, and the
turn ends in the apology reply. -/
theorem c6_counterexample :
    (orchestrator_agent envGreet toolPolicyNotFound toolFlightFound toolWebNotFound
        "hello").2 = ["query_policy_and_baggage"] ∧
      (orchestrator_agent envGreet toolPolicyNotFound toolFlightFound toolWebNotFound
          "hello").1
        = Except.ok (apologyReply, ["Policy and Baggage (Default)"]) :=
  ⟨rfl, rfl⟩

/-- C6 (corrected): no greeting detection exists; whether retrieval is
bypassed for a greeting depends only on the LLM's response.  When the first
Gemini response requests no tool calls, the orchestrator queries no
retrieval collection if the response text is nonempty after stripping, but
performs the default `query_policy_and_baggage` retrieval if the response
text is blank — even for a pure greeting. -/
theorem c6_router_amended (env : GeminiEnv) (p f w : String → Except String String)
    (q : String) (r : LLMResponse) (h1 : env.first = Except.ok r)
    (h2 : r.function_calls = []) :
    ((pyStrip r.text = "" → False) → (orchestrator_agent env p f w q).2 = []) ∧
      (pyStrip r.text = "" →
        (orchestrator_agent env p f w q).2 = ["query_policy_and_baggage"]) := by
  unfold orchestrator_agent
  rw [h1]
  dsimp only
  rw [h2]
  dsimp only [runToolCalls]
  constructor
  · intro hne
    rw [if_neg (by decide), if_neg hne]
  · intro heq
    rw [if_neg (by decide), if_pos heq]
    cases p q <;> rfl

/-- Witness for C6 (amended): a direct nonempty text answer for "hi" makes
the orchestrator query no retrieval collection. -/
theorem c6_witness :
    (pyStrip (LLMResponse.text ⟨[], "Hello! How can I help you today?"⟩) = "" → False) ∧
      (orchestrator_agent envDirect toolPolicyNotFound toolFlightFound toolWebNotFound
          "hi").2 = [] :=
  ⟨by decide,
    (c6_router_amended envDirect toolPolicyNotFound toolFlightFound toolWebNotFound "hi"
        ⟨[], "Hello! How can I help you today?"⟩ rfl rfl).1 (by decide)⟩
